import Mathlib

/-!
Verification of `airflow/api_internal/internal_api_call.py`.

This file is a shallow embedding of the module in Lean 4:

* `ConfigState` models the three class attributes of `InternalApiConfig`
  (`_initialized`, `_use_internal_api`, `_internal_api_endpoint`);
  `force_database_direct_access`, `force_api_access`, `_init_values`,
  `get_use_internal_api` and `get_internal_api_endpoint` are translated
  line by line.  Python exceptions are modelled with `Except`.
* The configuration lookups (`conf.getboolean`, `conf.get`) and the result
  of `urllib.parse.urlparse` are inputs (`Conf`, `ParsedUrl`): they are
  external collaborators of the module.
* `singleAttempt` models the body of `make_jsonrpc_request` for one HTTP
  POST; the network is an oracle `Nat → String → RpcRequest → PostOutcome`
  giving the outcome of the n-th POST to a given URL.  The `tenacity.retry`
  decorator of the source (`stop_after_attempt(10)`,
  `wait_exponential(min=1)`, `retry_if_exception_type((NewConnectionError,
  ConnectionError))`, `before_sleep=before_log(logger, logging.WARNING)`)
  is modelled by `retryAux`, following tenacity's documented semantics:
  after a failed attempt the retry predicate is consulted; a non-matching
  exception is re-raised at once; a matching one is retried until the stop
  condition (10 attempts) holds, after which `RetryError(last_attempt)` is
  raised; before each sleep a WARNING-level log line is emitted; the sleep
  after attempt n lasts `max(min, min(multiplier * 2 ** n, max))` seconds
  (`tenacity.wait_exponential.__call__`).  Each retry is recorded as a
  `RetryEvent` (attempt number, level of the log line emitted before the
  sleep, sleep duration in seconds).
* `bindArgs` models `inspect.signature(func).bind(*args, **kwargs)` for
  positional-or-keyword parameters: positional arguments are matched
  against the parameter list in order, keyword arguments by name, binding
  errors raise `TypeError`, and — exactly as in CPython — parameters that
  were not supplied are absent from `BoundArguments.arguments` even when
  they declare a default (`bind` does not apply defaults).
* `wrapper` models the closure returned by `internal_api_call`.  The
  object serializer (`BaseSerialization`), the JWT signer and the wrapped
  function `f` itself are external collaborators passed in `Env`.
-/

namespace InternalApiCall

/-- Equality on `Except` is decidable when it is on both components. -/
instance instDecEqExcept {ε α : Type} [DecidableEq ε] [DecidableEq α] :
    DecidableEq (Except ε α) := fun x y =>
  match x, y with
  | Except.error a, Except.error b =>
    if h : a = b then isTrue (congrArg Except.error h)
    else isFalse (fun hc => h (by injection hc))
  | Except.ok a, Except.ok b =>
    if h : a = b then isTrue (congrArg Except.ok h)
    else isFalse (fun hc => h (by injection hc))
  | Except.error _, Except.ok _ => isFalse (fun hc => Except.noConfusion hc)
  | Except.ok _, Except.error _ => isFalse (fun hc => Except.noConfusion hc)

/-- A Python value, as far as the claims need one. -/
inductive PyVal where
  | none
  | bool (b : Bool)
  | int (n : Int)
  | str (s : String)
deriving Repr, DecidableEq

/-- An exception that one HTTP attempt inside `make_jsonrpc_request` can
raise: the connection-establishment errors named in the retry predicate,
the `AirflowException` built from a non-200 response, or any other
exception of the HTTP stack. -/
inductive AttemptExc where
  | newConnectionError (msg : String)
  | connectionError (msg : String)
  | airflowException (msg : String)
  | other (name msg : String)
deriving Repr, DecidableEq

/-- The exception universe of the module: exceptions of the wrapped
function (`user`), `TypeError` from argument binding, `RuntimeError` and
`AirflowConfigException` from `_init_values`, exceptions propagated from
an HTTP attempt, and `tenacity.RetryError` after exhausting attempts. -/
inductive Exc where
  | user (name payload : String)
  | typeError (msg : String)
  | runtimeError (msg : String)
  | airflowConfigException (msg : String)
  | attempt (e : AttemptExc)
  | retryError (last : AttemptExc)
deriving Repr, DecidableEq

/-- Result of `urllib.parse.urlparse(conf.get("core", "internal_api_url"))`:
the three components the source reads. `netloc` is `host[:port]`. -/
structure ParsedUrl where
  scheme : String
  netloc : String
  path : String
deriving Repr, DecidableEq

/-- The configuration values the module reads:
`conf.getboolean("core", "database_access_isolation", fallback=False)` and
the parsed `conf.get("core", "internal_api_url")`. -/
structure Conf where
  database_access_isolation : Bool
  internal_api_url : ParsedUrl
deriving Repr, DecidableEq

/-- The three class attributes of `InternalApiConfig`. -/
structure ConfigState where
  initialized : Bool
  use_internal_api : Bool
  internal_api_endpoint : String
deriving Repr, DecidableEq

/-- The class-level initial values:
`_initialized = False`, `_use_internal_api = False`,
`_internal_api_endpoint = ""`. -/
def initialState : ConfigState := ⟨false, false, ""⟩

/-- `InternalApiConfig.force_database_direct_access`: sets
`_initialized = True` and `_use_internal_api = False`; the endpoint
attribute is not touched.  The `message` is only logged. -/
def force_database_direct_access (message : String) (s : ConfigState) : ConfigState :=
  ⟨true, false, s.internal_api_endpoint⟩

/-- `InternalApiConfig.force_api_access`: sets `_initialized = True`,
`_use_internal_api = True` and stores the given endpoint, unconditionally
and without any validation. -/
def force_api_access (api_endpoint : String) (s : ConfigState) : ConfigState :=
  ⟨true, true, api_endpoint⟩

/-- `InternalApiConfig._init_values`, with `_ENABLE_AIP_44` and the
configuration as inputs.  Mirrors the source: the isolation flag is read;
if it is set while AIP-44 is disabled a `RuntimeError` is raised; under
isolation the parsed URL's empty or root path is replaced by the default
RPC path, a scheme other than http/https raises
`AirflowConfigException`, and the endpoint is
`scheme://netloc + path`. -/
def _init_values (enable_aip_44 : Bool) (c : Conf) : Except Exc ConfigState :=
  let use_internal_api := c.database_access_isolation
  if use_internal_api && !enable_aip_44 then
    Except.error (Exc.runtimeError "The AIP_44 is not enabled so you cannot use it.")
  else if use_internal_api then
    let url_conf := c.internal_api_url
    let api_path := if url_conf.path = "" ∨ url_conf.path = "/" then
        "/internal_api/v1/rpcapi"
      else url_conf.path
    if ¬(url_conf.scheme = "http" ∨ url_conf.scheme = "https") then
      Except.error (Exc.airflowConfigException
        "[core]internal_api_url must start with http:// or https://")
    else
      Except.ok ⟨true, true, url_conf.scheme ++ "://" ++ url_conf.netloc ++ api_path⟩
  else
    Except.ok ⟨true, false, ""⟩

/-- `InternalApiConfig.get_use_internal_api`: lazily initializes, then
returns `_use_internal_api` (together with the possibly updated state). -/
def get_use_internal_api (enable_aip_44 : Bool) (c : Conf) (s : ConfigState) :
    Except Exc (Bool × ConfigState) :=
  if s.initialized then Except.ok (s.use_internal_api, s)
  else
    match _init_values enable_aip_44 c with
    | Except.error e => Except.error e
    | Except.ok s' => Except.ok (s'.use_internal_api, s')

/-- `InternalApiConfig.get_internal_api_endpoint`: lazily initializes,
then returns `_internal_api_endpoint`. -/
def get_internal_api_endpoint (enable_aip_44 : Bool) (c : Conf) (s : ConfigState) :
    Except Exc (String × ConfigState) :=
  if s.initialized then Except.ok (s.internal_api_endpoint, s)
  else
    match _init_values enable_aip_44 c with
    | Except.error e => Except.error e
    | Except.ok s' => Except.ok (s'.internal_api_endpoint, s')

/-- One operation on the mode gate. -/
inductive GateOp where
  | forceLocal (message : String)
  | forceRemote (endpoint : String)
  | readUse
  | readEndpoint
deriving Repr, DecidableEq

/-- Effect of one mode-gate operation on the state (reads may trigger the
lazy initialization, which can raise). -/
def stepGate (enable_aip_44 : Bool) (c : Conf) (s : ConfigState) : GateOp → Except Exc ConfigState
  | GateOp.forceLocal msg => Except.ok (force_database_direct_access msg s)
  | GateOp.forceRemote e => Except.ok (force_api_access e s)
  | GateOp.readUse => (get_use_internal_api enable_aip_44 c s).map Prod.snd
  | GateOp.readEndpoint => (get_internal_api_endpoint enable_aip_44 c s).map Prod.snd

/-- Runs a sequence of mode-gate operations from a state; an exception
aborts the run. -/
def runGate (enable_aip_44 : Bool) (c : Conf) : List GateOp → ConfigState → Except Exc ConfigState
  | [], s => Except.ok s
  | op :: ops, s =>
    match stepGate enable_aip_44 c s op with
    | Except.error e => Except.error e
    | Except.ok s' => runGate enable_aip_44 c ops s'

/-- An HTTP response as `requests` exposes it: status code, reason
phrase, body as text and body as bytes (bytes modelled as `String`). -/
structure HttpResponse where
  status_code : Nat
  reason : String
  text : String
  content : String
deriving Repr, DecidableEq

/-- The JSON-RPC request body built by `make_jsonrpc_request`:
`{"jsonrpc": "2.0", "method": method_name, "params": params_json}`. -/
structure RpcRequest where
  jsonrpc : String
  method : String
  params : String
deriving Repr, DecidableEq

/-- Outcome of one `requests.post`: either an exception was raised while
establishing or using the connection, or a response was received. -/
inductive PostOutcome where
  | raised (e : AttemptExc)
  | response (r : HttpResponse)
deriving Repr, DecidableEq

/-- The network oracle: outcome of the n-th POST, given the URL posted to
and the request body. -/
def Post := Nat → String → RpcRequest → PostOutcome

/-- How `make_jsonrpc_request` can fail: an attempt's exception
re-raised because the retry predicate did not match it, or
`tenacity.RetryError(last_attempt)` after the stop condition. -/
inductive RetryFailure where
  | propagated (e : AttemptExc)
  | retryError (last : AttemptExc)
deriving Repr, DecidableEq

/-- The message of the `AirflowException` raised on a non-200 response:
`f"Got {response.status_code}:{response.reason} when sending the
internal api request: {response.text}"`. -/
def requestErrorMessage (r : HttpResponse) : String :=
  "Got " ++ toString r.status_code ++ ":" ++ r.reason ++
    " when sending the internal api request: " ++ r.text

/-- The configured retry predicate
`retry_if_exception_type((NewConnectionError, ConnectionError))`. -/
def retryable : AttemptExc → Bool
  | AttemptExc.newConnectionError _ => true
  | AttemptExc.connectionError _ => true
  | _ => false

/-- `logging.WARNING`. -/
def loggingWARNING : Nat := 30

/-- tenacity's default upper clamp for `wait_exponential`
(`_utils.MAX_WAIT`); any value larger than every wait reached within 10
attempts is faithful. -/
def tenacityMaxWait : Nat := 4611686018427387904

/-- `tenacity.wait_exponential.__call__` with `exp_base = 2`: the sleep
after attempt number n lasts
`max(max(0, min), min(multiplier * 2 ** n, max))` seconds. -/
def waitExponential (multiplier mn mx attempt_number : Nat) : Nat :=
  max (max 0 mn) (min (multiplier * 2 ^ attempt_number) mx)

/-- One retry as observed from outside: after failed attempt
`attempt_number`, a log line at level `log_level` is emitted
(`before_sleep=tenacity.before_log(logger, logging.WARNING)`) and then
the controller sleeps `wait_seconds` seconds. -/
structure RetryEvent where
  attempt_number : Nat
  log_level : Nat
  wait_seconds : Nat
deriving Repr, DecidableEq

/-- The body of `make_jsonrpc_request` for a single attempt `n`: POST the
JSON-RPC body to the endpoint; an exception of the HTTP stack propagates;
a response with status other than 200 raises `AirflowException` carrying
status code, reason and body; a 200 response yields `response.content`. -/
def singleAttempt (post : Post) (endpoint method_name params_json : String) (n : Nat) :
    Except AttemptExc String :=
  match post n endpoint ⟨"2.0", method_name, params_json⟩ with
  | PostOutcome.raised e => Except.error e
  | PostOutcome.response r =>
    if r.status_code ≠ 200 then
      Except.error (AttemptExc.airflowException (requestErrorMessage r))
    else
      Except.ok r.content

/-- The tenacity retry controller around one attempt function, with
`fuel` attempts still permitted and `n` the number of the next attempt:
a successful attempt returns its value; a failed attempt is re-raised at
once when the retry predicate does not match; otherwise, when it was the
last permitted attempt, `RetryError(last_attempt)` is raised, and when
attempts remain, a WARNING log line and the exponential sleep are
recorded and the next attempt runs. -/
def retryAux (out : Nat → Except AttemptExc String) :
    Nat → Nat → Except RetryFailure String × List RetryEvent
  | _, 0 => (Except.error (RetryFailure.retryError (AttemptExc.other "Invariant" "no attempt permitted")), [])
  | n, fuel + 1 =>
    match out n with
    | Except.ok c => (Except.ok c, [])
    | Except.error e =>
      if retryable e then
        match fuel with
        | 0 => (Except.error (RetryFailure.retryError e), [])
        | f + 1 =>
          let rest := retryAux out (n + 1) (f + 1)
          (rest.1, ⟨n, loggingWARNING, waitExponential 1 1 tenacityMaxWait n⟩ :: rest.2)
      else
        (Except.error (RetryFailure.propagated e), [])

/-- `make_jsonrpc_request` as decorated:
`stop=stop_after_attempt(10)`, `wait=wait_exponential(min=1)`,
`retry=retry_if_exception_type((NewConnectionError, ConnectionError))`,
`before_sleep=before_log(logger, logging.WARNING)`.  Returns the result
together with the list of retries that occurred. -/
def make_jsonrpc_request (post : Post) (endpoint method_name params_json : String) :
    Except RetryFailure String × List RetryEvent :=
  retryAux (singleAttempt post endpoint method_name params_json) 1 10

/-- A declared parameter of the wrapped function: its name and its
default value, when one is declared. -/
structure Param where
  name : String
  dflt : Option PyVal
deriving Repr, DecidableEq

/-- `inspect.signature(func).bind(*args, **kwargs)` followed by
`dict(bound.arguments)`, for positional-or-keyword parameters.
Positional arguments bind to the leading parameters in order; keyword
arguments bind by name; `TypeError` is raised for surplus positional
arguments, for a keyword argument that re-binds a positionally bound
parameter or matches no parameter, and for a missing argument of a
parameter with no default.  As in CPython, `bind` does not apply
defaults: a parameter that was not supplied is absent from
`BoundArguments.arguments`.  The mapping preserves parameter order, as
`BoundArguments.arguments` does. -/
def bindArgs (params : List Param) (args : List PyVal) (kwargs : List (String × PyVal)) :
    Except Exc (List (String × PyVal)) :=
  if params.length < args.length then
    Except.error (Exc.typeError "too many positional arguments")
  else if kwargs.any (fun kv => (params.take args.length).any (fun p => p.name = kv.1)) then
    Except.error (Exc.typeError "multiple values for argument")
  else if kwargs.any (fun kv => !params.any (fun p => p.name = kv.1)) then
    Except.error (Exc.typeError "got an unexpected keyword argument")
  else if (params.drop args.length).any
      (fun p => p.dflt.isNone && (List.lookup p.name kwargs).isNone) then
    Except.error (Exc.typeError "missing a required argument")
  else
    Except.ok ((params.take args.length).zipWith (fun p v => (p.name, v)) args ++
      (params.drop args.length).filterMap
        (fun p => (List.lookup p.name kwargs).map (fun v => (p.name, v))))

/-- `del arguments_dict[k]` guarded by `if k in arguments_dict` — on a
mapping with unique keys this removes every entry with key `k`. -/
def delKey (d : List (String × PyVal)) (k : String) : List (String × PyVal) :=
  d.filter (fun kv => kv.1 != k)

/-- The two deletions performed by the wrapper before serialization:
`del arguments_dict["session"]` (when present) and
`del arguments_dict["cls"]` (when present). -/
def stripTransportParams (d : List (String × PyVal)) : List (String × PyVal) :=
  delKey (delKey d "session") "cls"

/-- The parameter mapping the wrapper hands to
`BaseSerialization.serialize`: the bound arguments with `"session"` and
`"cls"` removed. -/
def requestPayload (params : List Param) (args : List PyVal) (kwargs : List (String × PyVal)) :
    Except Exc (List (String × PyVal)) :=
  (bindArgs params args kwargs).map stripTransportParams

/-- The external collaborators of the wrapper: the build flag and
configuration feeding the mode gate, the network oracle, the object
serializer (`BaseSerialization.serialize` composed with the JSON
encoding, and `json.loads` composed with
`BaseSerialization.deserialize`), and the identity of the wrapped
function (`func.__module__`, `func.__qualname__`). -/
structure Env where
  enable_aip_44 : Bool
  conf : Conf
  post : Post
  serialize : List (String × PyVal) → String
  deserialize : String → PyVal
  module : String
  qualname : String

/-- `f"{func.__module__}.{func.__qualname__}"`. -/
def methodName (env : Env) : String := env.module ++ "." ++ env.qualname

/-- The closure returned by `internal_api_call(func)`, applied to a call
with positional arguments `args` and keyword arguments `kwargs`, started
in mode-gate state `s`.  Local mode calls `f` unmodified; remote mode
binds the arguments, strips `"session"` and `"cls"`, serializes, makes
the JSON-RPC request (10 attempts at most), and decodes the result:
an empty body yields `None`, a non-empty body is deserialized.  Returns
the call's result and the mode-gate state afterwards. -/
def wrapper (env : Env) (f : List PyVal → List (String × PyVal) → Except Exc PyVal)
    (params : List Param) (args : List PyVal) (kwargs : List (String × PyVal))
    (s : ConfigState) : Except Exc PyVal × ConfigState :=
  match get_use_internal_api env.enable_aip_44 env.conf s with
  | Except.error e => (Except.error e, s)
  | Except.ok (use_internal_api, s1) =>
    if use_internal_api = false then
      (f args kwargs, s1)
    else
      match requestPayload params args kwargs with
      | Except.error e => (Except.error e, s1)
      | Except.ok arguments_dict =>
        let args_dict := env.serialize arguments_dict
        match get_internal_api_endpoint env.enable_aip_44 env.conf s1 with
        | Except.error e => (Except.error e, s1)
        | Except.ok (internal_api_endpoint, s2) =>
          match (make_jsonrpc_request env.post internal_api_endpoint (methodName env) args_dict).1 with
          | Except.error (RetryFailure.propagated e) => (Except.error (Exc.attempt e), s2)
          | Except.error (RetryFailure.retryError e) => (Except.error (Exc.retryError e), s2)
          | Except.ok result =>
            if result = "" then (Except.ok PyVal.none, s2)
            else (Except.ok (env.deserialize result), s2)

/-! Concrete fixtures used by witnesses and counterexamples. -/

/-- A configuration with `database_access_isolation = False`. -/
def confLocal : Conf := ⟨false, ⟨"", "", ""⟩⟩

/-- A configuration with isolation on and `internal_api_url` parsing to
`http://localhost:8080` with an empty path. -/
def confRemoteHttp : Conf := ⟨true, ⟨"http", "localhost:8080", ""⟩⟩

/-- A configuration with isolation on and an `ftp://` URL. -/
def confRemoteFtp : Conf := ⟨true, ⟨"ftp", "remote-host", "/x"⟩⟩

/-- A network where every POST receives status 200 with body `"42"`. -/
def postOk42 : Post := fun _ _ _ => PostOutcome.response ⟨200, "OK", "42", "42"⟩

/-- A network where every POST receives status 404 with body
`"not found"`. -/
def post404 : Post := fun _ _ _ =>
  PostOutcome.response ⟨404, "NOT FOUND", "not found", "not found"⟩

/-- A network where every POST fails with a connection error. -/
def postConnFail : Post := fun _ _ _ =>
  PostOutcome.raised (AttemptExc.connectionError "connection refused")

/-- A network where attempt 1 fails with a connection error and every
later attempt receives status 200 with body `"42"`. -/
def postConnThenOk : Post := fun n _ _ =>
  if n ≤ 1 then PostOutcome.raised (AttemptExc.connectionError "connection refused")
  else PostOutcome.response ⟨200, "OK", "42", "42"⟩

/-- A network that answers 200 with an empty body only when the POST is
addressed to `ftp://remote` and fails otherwise: a successful call
through it proves the request was sent to the ftp endpoint. -/
def postFtpOnly : Post := fun _ url _ =>
  if url = "ftp://remote" then PostOutcome.response ⟨200, "OK", "", ""⟩
  else PostOutcome.raised (AttemptExc.other "InvalidSchema" "no connection adapters")

/-- A wrapped function that returns the integer 7. -/
def fConst : List PyVal → List (String × PyVal) → Except Exc PyVal :=
  fun _ _ => Except.ok (PyVal.int 7)

/-- A wrapped function that raises. -/
def fRaise : List PyVal → List (String × PyVal) → Except Exc PyVal :=
  fun _ _ => Except.error (Exc.user "ValueError" "boom")

/-- An environment whose configuration turns isolation off. -/
def envLocal : Env :=
  ⟨true, confLocal, post404, fun _ => "serialized", PyVal.str,
    "airflow.models.dagrun", "DagRun.fetch_task_instance"⟩

/-- An environment over the always-42 network. -/
def env42 : Env :=
  ⟨true, confLocal, postOk42, fun _ => "serialized", PyVal.str,
    "airflow.models.dagrun", "DagRun.fetch_task_instance"⟩

/-- An environment over the ftp-only network. -/
def envFtp : Env :=
  ⟨true, confLocal, postFtpOnly, fun _ => "serialized", PyVal.str,
    "airflow.models.dagrun", "DagRun.fetch_task_instance"⟩

/-- An already-initialized remote state, as lazy initialization under
`confRemoteHttp` would produce it. -/
def stateRemote : ConfigState :=
  ⟨true, true, "http://localhost:8080/internal_api/v1/rpcapi"⟩

/-! Helper lemmas. -/

/-- `_init_values` always marks the state initialized. -/
theorem init_values_initialized (enable : Bool) (c : Conf) (s' : ConfigState)
    (h : _init_values enable c = Except.ok s') : s'.initialized = true := by
  unfold _init_values at h
  dsimp only at h
  split at h
  · exact absurd h (by simp)
  · split at h
    · split at h
      · exact absurd h (by simp)
      · cases h
        rfl
    · cases h
      rfl

/-- `get_use_internal_api` leaves the state initialized. -/
theorem get_use_internal_api_initialized (enable : Bool) (c : Conf) (s : ConfigState)
    (u : Bool) (s' : ConfigState)
    (h : get_use_internal_api enable c s = Except.ok (u, s')) : s'.initialized = true := by
  unfold get_use_internal_api at h
  split at h
  · cases h
    assumption
  · cases hi : _init_values enable c with
    | error e =>
      rw [hi] at h
      exact absurd h (by simp)
    | ok s0 =>
      rw [hi] at h
      cases h
      exact init_values_initialized enable c _ hi

/-- Reading the endpoint from an initialized state returns the stored
endpoint and does not change the state. -/
theorem get_internal_api_endpoint_of_initialized (enable : Bool) (c : Conf)
    (s : ConfigState) (h : s.initialized = true) :
    get_internal_api_endpoint enable c s = Except.ok (s.internal_api_endpoint, s) := by
  unfold get_internal_api_endpoint
  rw [h]
  simp

/-- A string with a non-empty prefix is non-empty. -/
theorem append_left_ne_empty (a b : String) (h : a ≠ "") : a ++ b ≠ "" := by
  intro hab
  apply h
  have hd : a.data ++ b.data = [] := by
    simpa [String.data_append] using congrArg String.data hab
  have ha : a.data = [] := (List.append_eq_nil.mp hd).1
  exact String.ext (by simp [ha])

/-- Full characterization of the retry controller, by induction on the
permitted number of attempts.  With `fuel + 1` attempts permitted and
`n` the next attempt number: at most `fuel` retries occur; the retries
are recorded for the consecutive attempts `n, n+1, …`; every recorded
retry follows an attempt that failed with an exception matching the
retry predicate, logs at WARNING level and sleeps the exponential wait
of its attempt number; a returned value is the value of the final
attempt; `RetryError e` is raised exactly when all permitted attempts
failed and the last exception `e` matched the retry predicate; a
propagated exception is the final attempt's exception and does not
match the retry predicate. -/
theorem retryAux_spec (out : Nat → Except AttemptExc String) :
    ∀ (fuel n : Nat),
      (retryAux out n (fuel + 1)).2.length ≤ fuel ∧
      ((retryAux out n (fuel + 1)).2.map RetryEvent.attempt_number =
        List.range' n (retryAux out n (fuel + 1)).2.length) ∧
      (∀ ev ∈ (retryAux out n (fuel + 1)).2,
        (∃ e, out ev.attempt_number = Except.error e ∧ retryable e = true) ∧
        ev.log_level = loggingWARNING ∧
        ev.wait_seconds = waitExponential 1 1 tenacityMaxWait ev.attempt_number) ∧
      (∀ c, (retryAux out n (fuel + 1)).1 = Except.ok c →
        out (n + (retryAux out n (fuel + 1)).2.length) = Except.ok c) ∧
      (∀ e, (retryAux out n (fuel + 1)).1 = Except.error (RetryFailure.retryError e) →
        (retryAux out n (fuel + 1)).2.length = fuel ∧ retryable e = true ∧
        out (n + fuel) = Except.error e) ∧
      (∀ e, (retryAux out n (fuel + 1)).1 = Except.error (RetryFailure.propagated e) →
        retryable e = false ∧
        out (n + (retryAux out n (fuel + 1)).2.length) = Except.error e) := by
  intro fuel
  induction fuel with
  | zero =>
    intro n
    cases hout : out n with
    | ok c =>
      have hred : retryAux out n (0 + 1) = (Except.ok c, []) := by
        rw [retryAux, hout]
      rw [hred]
      refine ⟨by simp, by simp [List.range'], by simp, ?_, by simp, by simp⟩
      intro c' hc
      simp only [] at hc
      cases hc
      simpa using hout
    | error e =>
      cases hr : retryable e with
      | true =>
        have hred : retryAux out n (0 + 1) =
            (Except.error (RetryFailure.retryError e), []) := by
          rw [retryAux, hout]
          simp [hr]
        rw [hred]
        refine ⟨by simp, by simp [List.range'], by simp, by simp, ?_, by simp⟩
        intro e' he
        simp only [] at he
        cases he
        exact ⟨by simp, hr, by simpa using hout⟩
      | false =>
        have hred : retryAux out n (0 + 1) =
            (Except.error (RetryFailure.propagated e), []) := by
          rw [retryAux, hout]
          simp [hr]
        rw [hred]
        refine ⟨by simp, by simp [List.range'], by simp, by simp, by simp, ?_⟩
        intro e' he
        simp only [] at he
        cases he
        exact ⟨hr, by simpa using hout⟩
  | succ f ih =>
    intro n
    cases hout : out n with
    | ok c =>
      have hred : retryAux out n (f + 1 + 1) = (Except.ok c, []) := by
        rw [retryAux, hout]
      rw [hred]
      refine ⟨by simp, by simp [List.range'], by simp, ?_, by simp, by simp⟩
      intro c' hc
      simp only [] at hc
      cases hc
      simpa using hout
    | error e =>
      cases hr : retryable e with
      | true =>
        obtain ⟨ih1, ih2, ih3, ih4, ih5, ih6⟩ := ih (n + 1)
        have hred : retryAux out n (f + 1 + 1) =
            ((retryAux out (n + 1) (f + 1)).1,
              (⟨n, loggingWARNING, waitExponential 1 1 tenacityMaxWait n⟩ : RetryEvent) ::
                (retryAux out (n + 1) (f + 1)).2) := by
          rw [retryAux, hout]
          simp [hr]
        rw [hred]
        refine ⟨?_, ?_, ?_, ?_, ?_, ?_⟩
        · simp only [List.length_cons]
          exact Nat.succ_le_succ ih1
        · simp only [List.map_cons, List.length_cons, List.range']
          rw [ih2]
        · intro ev hev
          rcases List.mem_cons.mp hev with hev | hev
          · subst hev
            exact ⟨⟨e, hout, hr⟩, rfl, rfl⟩
          · exact ih3 ev hev
        · intro c hc
          simp only [] at hc
          have h2 := ih4 c hc
          simp only [List.length_cons]
          rw [show n + ((retryAux out (n + 1) (f + 1)).2.length + 1) =
            n + 1 + (retryAux out (n + 1) (f + 1)).2.length by omega]
          exact h2
        · intro e' he
          simp only [] at he
          obtain ⟨hl, hr', ho⟩ := ih5 e' he
          refine ⟨by simp [List.length_cons, hl], hr', ?_⟩
          rw [show n + (f + 1) = n + 1 + f by omega]
          exact ho
        · intro e' he
          simp only [] at he
          obtain ⟨hr', ho⟩ := ih6 e' he
          refine ⟨hr', ?_⟩
          simp only [List.length_cons]
          rw [show n + ((retryAux out (n + 1) (f + 1)).2.length + 1) =
            n + 1 + (retryAux out (n + 1) (f + 1)).2.length by omega]
          exact ho
      | false =>
        have hred : retryAux out n (f + 1 + 1) =
            (Except.error (RetryFailure.propagated e), []) := by
          rw [retryAux, hout]
          simp [hr]
        rw [hred]
        refine ⟨by simp, by simp [List.range'], by simp, by simp, by simp, ?_⟩
        intro e' he
        simp only [] at he
        cases he
        exact ⟨hr, by simpa using hout⟩

/-- C2 (amended): retry policy of `make_jsonrpc_request` as configured
(`stop_after_attempt(10)`, `wait_exponential(min=1)`, retry only on
`NewConnectionError`/`ConnectionError`, warning log before each sleep).
At most 9 retries occur, so at most 10 total attempts; the retries
follow the consecutive attempts 1, 2, …; every retried attempt failed
with a connection-establishment error and each retry logs at
`logging.WARNING` before sleeping; the sleep after attempt n lasts
`max 1 (2 ^ n)` seconds — exponential doubling with the configured
1-second floor, whose first value is 2 seconds, not 1; a returned value
is the final attempt's 200-response body; `RetryError` occurs exactly
after 10 attempts whose last failed with a connection error; any other
failure is the final attempt's exception, which never matches the retry
predicate (in particular a non-2xx response is never retried). -/
theorem make_jsonrpc_request_retry_policy (post : Post) (ep mn pj : String) :
    (make_jsonrpc_request post ep mn pj).2.length ≤ 9 ∧
    ((make_jsonrpc_request post ep mn pj).2.map RetryEvent.attempt_number =
      List.range' 1 (make_jsonrpc_request post ep mn pj).2.length) ∧
    (∀ ev ∈ (make_jsonrpc_request post ep mn pj).2,
      (∃ e, singleAttempt post ep mn pj ev.attempt_number = Except.error e ∧
        retryable e = true) ∧
      ev.log_level = loggingWARNING ∧
      ev.wait_seconds = max 1 (2 ^ ev.attempt_number)) ∧
    (∀ c, (make_jsonrpc_request post ep mn pj).1 = Except.ok c →
      singleAttempt post ep mn pj ((make_jsonrpc_request post ep mn pj).2.length + 1) =
        Except.ok c) ∧
    (∀ e, (make_jsonrpc_request post ep mn pj).1 =
        Except.error (RetryFailure.retryError e) →
      (make_jsonrpc_request post ep mn pj).2.length = 9 ∧ retryable e = true ∧
      singleAttempt post ep mn pj 10 = Except.error e) ∧
    (∀ e, (make_jsonrpc_request post ep mn pj).1 =
        Except.error (RetryFailure.propagated e) →
      retryable e = false ∧
      singleAttempt post ep mn pj ((make_jsonrpc_request post ep mn pj).2.length + 1) =
        Except.error e) := by
  have hs := retryAux_spec (singleAttempt post ep mn pj) 9 1
  rw [show (9 : Nat) + 1 = 10 from rfl] at hs
  obtain ⟨h1, h2, h3, h4, h5, h6⟩ := hs
  simp only [make_jsonrpc_request]
  refine ⟨h1, h2, ?_, ?_, ?_, ?_⟩
  · intro ev hev
    obtain ⟨he, hlog, hwait⟩ := h3 ev hev
    refine ⟨he, hlog, ?_⟩
    have hmem : ev.attempt_number ∈
        (retryAux (singleAttempt post ep mn pj) 1 10).2.map RetryEvent.attempt_number :=
      List.mem_map_of_mem RetryEvent.attempt_number hev
    rw [h2] at hmem
    have hlt := (List.mem_range'_1.mp hmem).2
    have hle : ev.attempt_number ≤ 9 := by omega
    rw [hwait]
    unfold waitExponential tenacityMaxWait
    have h2a : 2 ^ ev.attempt_number ≤ 4611686018427387904 := by
      calc 2 ^ ev.attempt_number ≤ 2 ^ 9 := Nat.pow_le_pow_right (by omega) hle
        _ ≤ 4611686018427387904 := by norm_num
    simp [Nat.min_eq_left h2a]
  · intro c hc
    have hv := h4 c hc
    rwa [Nat.add_comm 1 _] at hv
  · intro e hee
    obtain ⟨hl, hr, ho⟩ := h5 e hee
    exact ⟨hl, hr, by simpa using ho⟩
  · intro e hee
    obtain ⟨hf, ho⟩ := h6 e hee
    exact ⟨hf, by rwa [Nat.add_comm 1 _] at ho⟩

/-- Witness for C2 at a concrete network where attempt 1 fails with a
connection error and attempt 2 succeeds with body `"42"`: the single
retry followed a connection-error attempt, logged at WARNING, slept 2
seconds, and the call returned the body of the second attempt. -/
theorem make_jsonrpc_request_retry_policy_witness :
    ((∃ e, singleAttempt postConnThenOk "http://h" "m" "p" 1 = Except.error e ∧
        retryable e = true) ∧
      RetryEvent.log_level ⟨1, 30, 2⟩ = loggingWARNING ∧
      RetryEvent.wait_seconds ⟨1, 30, 2⟩ = max 1 (2 ^ RetryEvent.attempt_number ⟨1, 30, 2⟩)) ∧
    singleAttempt postConnThenOk "http://h" "m" "p"
      ((make_jsonrpc_request postConnThenOk "http://h" "m" "p").2.length + 1) =
        Except.ok "42" :=
  ⟨(make_jsonrpc_request_retry_policy postConnThenOk "http://h" "m" "p").2.2.1
      ⟨1, 30, 2⟩ (by decide),
    (make_jsonrpc_request_retry_policy postConnThenOk "http://h" "m" "p").2.2.2.1
      "42" (by decide)⟩

/-- C2 counterexample: when every attempt fails with a connection error
the nine recorded waits are 2, 4, 8, …, 512 seconds — exponential but
starting at 2 seconds, not at 1 second as claimed — and the run makes
10 attempts, failing with `RetryError` on the last connection error. -/
theorem make_jsonrpc_request_first_wait_is_two :
    (make_jsonrpc_request postConnFail "http://h" "m" "p").2.map RetryEvent.wait_seconds =
      [2, 4, 8, 16, 32, 64, 128, 256, 512] ∧
    ((make_jsonrpc_request postConnFail "http://h" "m" "p").2.map
      RetryEvent.wait_seconds).head? ≠ some 1 ∧
    (make_jsonrpc_request postConnFail "http://h" "m" "p").1 =
      Except.error (RetryFailure.retryError (AttemptExc.connectionError "connection refused")) ∧
    (make_jsonrpc_request postConnFail "http://h" "m" "p").2.length = 9 := by
  decide

/-- C3: a received non-200 response is a terminal failure: the attempt
raises `AirflowException` whose message carries the status code, the
reason phrase and the response body; that exception does not match the
retry predicate; and from any attempt position with any remaining
budget the retry controller stops at once with it, recording no retry. -/
theorem non200_terminal (post : Post) (ep mn pj : String) (n fuel : Nat) (r : HttpResponse)
    (hpost : post n ep ⟨"2.0", mn, pj⟩ = PostOutcome.response r)
    (hs : r.status_code ≠ 200) :
    singleAttempt post ep mn pj n =
      Except.error (AttemptExc.airflowException
        ("Got " ++ toString r.status_code ++ ":" ++ r.reason ++
          " when sending the internal api request: " ++ r.text)) ∧
    retryable (AttemptExc.airflowException (requestErrorMessage r)) = false ∧
    retryAux (singleAttempt post ep mn pj) n (fuel + 1) =
      (Except.error (RetryFailure.propagated
        (AttemptExc.airflowException (requestErrorMessage r))), []) := by
  have h1 : singleAttempt post ep mn pj n =
      Except.error (AttemptExc.airflowException (requestErrorMessage r)) := by
    unfold singleAttempt
    rw [hpost]
    simp [hs]
  refine ⟨h1, rfl, ?_⟩
  rw [retryAux, h1]
  simp [retryable]

/-- Witness for C3: a first attempt answered 404 with body
`"not found"` makes the call fail immediately with the
`AirflowException` carrying `404`, `NOT FOUND` and `not found`, with no
retry events. -/
theorem non200_terminal_witness :
    (404 : Nat) ≠ 200 ∧
    make_jsonrpc_request post404 "http://h" "m" "p" =
      (Except.error (RetryFailure.propagated (AttemptExc.airflowException
        (requestErrorMessage ⟨404, "NOT FOUND", "not found", "not found"⟩))), []) :=
  ⟨by decide,
    (non200_terminal post404 "http://h" "m" "p" 1 9
      ⟨404, "NOT FOUND", "not found", "not found"⟩ rfl (by decide)).2.2⟩

/-- C1: in local mode the wrapper is the identity on the wrapped call —
whenever `get_use_internal_api` reports `False`, the wrapper's result is
exactly `f args kwargs`: the same value and the same exception, with no
modification, wrapping, or swallowing. -/
theorem wrapper_local_transparent (env : Env)
    (f : List PyVal → List (String × PyVal) → Except Exc PyVal)
    (params : List Param) (args : List PyVal) (kwargs : List (String × PyVal))
    (s s' : ConfigState)
    (h : get_use_internal_api env.enable_aip_44 env.conf s = Except.ok (false, s')) :
    (wrapper env f params args kwargs s).1 = f args kwargs := by
  unfold wrapper
  rw [h]
  simp

/-- Witness for C1: under `envLocal` (isolation off) the wrapper returns
`fConst`'s value 7, and for `fRaise` it propagates the `ValueError`. -/
theorem wrapper_local_transparent_witness :
    (wrapper envLocal fConst [] [] [] initialState).1 = fConst [] [] ∧
    (wrapper envLocal fRaise [] [] [] initialState).1 = fRaise [] [] :=
  ⟨wrapper_local_transparent envLocal fConst [] [] [] initialState ⟨true, false, ""⟩ (by decide),
   wrapper_local_transparent envLocal fRaise [] [] [] initialState ⟨true, false, ""⟩ (by decide)⟩

/-- C4: when the JSON-RPC request of a remote-mode call succeeds (HTTP
200), the wrapper returns `None` if the response body is empty and the
deserialized body otherwise. -/
theorem wrapper_remote_response_decoding (env : Env)
    (f : List PyVal → List (String × PyVal) → Except Exc PyVal)
    (params : List Param) (args : List PyVal) (kwargs : List (String × PyVal))
    (s s' : ConfigState) (bound : List (String × PyVal)) (content : String)
    (h1 : get_use_internal_api env.enable_aip_44 env.conf s = Except.ok (true, s'))
    (h2 : requestPayload params args kwargs = Except.ok bound)
    (h3 : (make_jsonrpc_request env.post s'.internal_api_endpoint (methodName env)
      (env.serialize bound)).1 = Except.ok content) :
    (wrapper env f params args kwargs s).1 =
      Except.ok (if content = "" then PyVal.none else env.deserialize content) := by
  have hinit := get_use_internal_api_initialized env.enable_aip_44 env.conf s true s' h1
  have hep := get_internal_api_endpoint_of_initialized env.enable_aip_44 env.conf s' hinit
  unfold wrapper
  rw [h1]
  simp only [h2, hep, h3]
  by_cases hc : content = "" <;> simp [hc]

/-- Witness for C4: an already-initialized remote state over the
always-42 network returns the deserialized `"42"`. -/
theorem wrapper_remote_response_decoding_witness :
    (wrapper env42 fConst [] [] [] stateRemote).1 =
      Except.ok (if "42" = "" then PyVal.none else env42.deserialize "42") :=
  wrapper_remote_response_decoding env42 fConst [] [] [] stateRemote stateRemote
    [] "42" (by decide) (by decide) (by decide)

/-- C5: the parameter mapping handed to the serializer never contains a
key named `"session"` or `"cls"`, whatever the wrapped operation's
signature and arguments are. -/
theorem requestPayload_excludes_transport_params (params : List Param) (args : List PyVal)
    (kwargs : List (String × PyVal)) (m : List (String × PyVal))
    (h : requestPayload params args kwargs = Except.ok m) :
    "session" ∉ m.map Prod.fst ∧ "cls" ∉ m.map Prod.fst := by
  have hm : ∃ b, bindArgs params args kwargs = Except.ok b ∧ m = stripTransportParams b := by
    unfold requestPayload at h
    cases hb : bindArgs params args kwargs with
    | error e =>
      rw [hb] at h
      exact absurd h (by simp [Except.map])
    | ok b =>
      rw [hb] at h
      simp only [Except.map] at h
      cases h
      exact ⟨b, rfl, rfl⟩
  obtain ⟨b, hb, rfl⟩ := hm
  constructor <;> intro hmem
  · obtain ⟨kv, hkv, hfst⟩ := List.mem_map.mp hmem
    simp only [stripTransportParams, delKey, List.mem_filter] at hkv
    have := hkv.1.2
    rw [hfst] at this
    simp at this
  · obtain ⟨kv, hkv, hfst⟩ := List.mem_map.mp hmem
    simp only [stripTransportParams, delKey, List.mem_filter] at hkv
    have := hkv.2
    rw [hfst] at this
    simp at this

/-- Witness for C5: an operation declaring `session`, `cls` and `x`
serializes only `x`. -/
theorem requestPayload_excludes_transport_params_witness :
    "session" ∉ List.map Prod.fst [("x", PyVal.int 3)] ∧
    "cls" ∉ List.map Prod.fst [("x", PyVal.int 3)] :=
  requestPayload_excludes_transport_params
    [⟨"session", Option.none⟩, ⟨"cls", Option.none⟩, ⟨"x", Option.none⟩]
    [PyVal.str "s", PyVal.str "c", PyVal.int 3] [] [("x", PyVal.int 3)] (by decide)

/-- Keys of the positionally bound part of the arguments come from the
leading parameters. -/
theorem mem_map_fst_zipWith_name (ps : List Param) (vs : List PyVal) (x : String)
    (h : x ∈ (ps.zipWith (fun p v => (p.name, v)) vs).map Prod.fst) :
    x ∈ ps.map Param.name := by
  induction ps generalizing vs with
  | nil => simp [List.zipWith] at h
  | cons q qs ih =>
    cases vs with
    | nil => simp [List.zipWith] at h
    | cons v vs' =>
      simp only [List.zipWith, List.map_cons, List.mem_cons] at h ⊢
      rcases h with h | h
      · exact Or.inl h
      · exact Or.inr (ih vs' h)

/-- C9 (amended): `Signature.bind` does not apply defaults — when a
caller omits an argument for a parameter (no positional value, no
keyword value), that parameter is absent from the bound-argument mapping
handed to serialization, even when it declares a default value. -/
theorem bind_omits_unsupplied_defaults (params : List Param) (args : List PyVal)
    (kwargs : List (String × PyVal)) (p : Param) (bound : List (String × PyVal))
    (hnd : (params.map Param.name).Nodup)
    (hb : bindArgs params args kwargs = Except.ok bound)
    (hp : p ∈ params.drop args.length)
    (hk : List.lookup p.name kwargs = Option.none) :
    p.name ∉ bound.map Prod.fst := by
  unfold bindArgs at hb
  split at hb
  · exact absurd hb (by simp)
  · split at hb
    · exact absurd hb (by simp)
    · split at hb
      · exact absurd hb (by simp)
      · split at hb
        · exact absurd hb (by simp)
        · cases hb
          intro hmem
          rw [List.map_append] at hmem
          rcases List.mem_append.mp hmem with hA | hB
          · have hA' := mem_map_fst_zipWith_name (params.take args.length) args p.name hA
            rw [← List.take_append_drop args.length params, List.map_append] at hnd
            have hdisj := List.disjoint_of_nodup_append hnd
            exact hdisj hA' (List.mem_map_of_mem Param.name hp)
          · obtain ⟨kv, hkv, hfst⟩ := List.mem_map.mp hB
            obtain ⟨q, hq, hqv⟩ := List.mem_filterMap.mp hkv
            obtain ⟨v, hv, hkveq⟩ := Option.map_eq_some'.mp hqv
            have hqname : q.name = p.name := by
              rw [← hkveq] at hfst
              exact hfst
            rw [hqname] at hv
            rw [hv] at hk
            exact Option.noConfusion hk

/-- Witness for C9 (amended): for `f(a, b=5)` called as `f(1)`, the
parameter `b` is absent from the serialized mapping. -/
theorem bind_omits_unsupplied_defaults_witness :
    "b" ∉ List.map Prod.fst [("a", PyVal.int 1)] :=
  bind_omits_unsupplied_defaults
    [⟨"a", Option.none⟩, ⟨"b", Option.some (PyVal.int 5)⟩] [PyVal.int 1] []
    ⟨"b", Option.some (PyVal.int 5)⟩ [("a", PyVal.int 1)]
    (by decide) (by decide) (by decide) rfl

/-- C9 counterexample: for `f(a, b=5)` called as `f(1)` the bound
mapping is `{a: 1}` — it does not include `b` bound to its default 5 as
the claim states. -/
theorem bind_does_not_resolve_defaults :
    bindArgs [⟨"a", Option.none⟩, ⟨"b", Option.some (PyVal.int 5)⟩] [PyVal.int 1] [] =
      Except.ok [("a", PyVal.int 1)] ∧
    requestPayload [⟨"a", Option.none⟩, ⟨"b", Option.some (PyVal.int 5)⟩] [PyVal.int 1] [] =
      Except.ok [("a", PyVal.int 1)] ∧
    "b" ∉ List.map Prod.fst [("a", PyVal.int 1)] := by
  decide

/-- C10: only `"session"` and `"cls"` are removed before serialization;
a bound parameter named `self` stays in the serialized payload. -/
theorem self_param_not_stripped (params : List Param) (args : List PyVal)
    (kwargs : List (String × PyVal)) (bound : List (String × PyVal)) (v : PyVal)
    (hb : bindArgs params args kwargs = Except.ok bound)
    (hv : ("self", v) ∈ bound) :
    requestPayload params args kwargs = Except.ok (stripTransportParams bound) ∧
    ("self", v) ∈ stripTransportParams bound := by
  refine ⟨by simp [requestPayload, hb, Except.map], ?_⟩
  simp only [stripTransportParams, delKey]
  exact List.mem_filter.mpr ⟨List.mem_filter.mpr ⟨hv, rfl⟩, rfl⟩

/-- Witness for C10: an instance-bound method with parameters `self` and
`session` keeps `self` in the payload. -/
theorem self_param_not_stripped_witness :
    requestPayload [⟨"self", Option.none⟩, ⟨"session", Option.none⟩]
        [PyVal.str "inst", PyVal.str "sess"] [] =
      Except.ok (stripTransportParams
        [("self", PyVal.str "inst"), ("session", PyVal.str "sess")]) ∧
    ("self", PyVal.str "inst") ∈ stripTransportParams
      [("self", PyVal.str "inst"), ("session", PyVal.str "sess")] :=
  self_param_not_stripped [⟨"self", Option.none⟩, ⟨"session", Option.none⟩]
    [PyVal.str "inst", PyVal.str "sess"] []
    [("self", PyVal.str "inst"), ("session", PyVal.str "sess")]
    (PyVal.str "inst") (by decide) (by decide)

/-- C6 counterexample: forcing the endpoint `ftp://remote` raises no
error and stores the ftp endpoint, and a subsequent wrapped call
proceeds to send the request to that endpoint — the network used here
answers 200 only for the URL `ftp://remote`, and the call succeeds —
so no configuration validation failed before the request was sent. -/
theorem forced_ftp_endpoint_not_validated :
    force_api_access "ftp://remote" initialState = ⟨true, true, "ftp://remote"⟩ ∧
    wrapper envFtp fConst [] [] [] (force_api_access "ftp://remote" initialState) =
      (Except.ok PyVal.none, ⟨true, true, "ftp://remote"⟩) := by
  decide

/-- C6 (amended): the explicit force-remote path stores any endpoint —
an `ftp://` one included — verbatim, with no validation and no error
before a request is sent; the http/https scheme validation happens only
in lazy initialization from configuration, which rejects an ftp URL
with `AirflowConfigException` before any request. -/
theorem force_api_access_skips_validation (e : String) (s : ConfigState) :
    force_api_access e s = ⟨true, true, e⟩ ∧
    (∀ enable c, c.database_access_isolation = true → enable = true →
      c.internal_api_url.scheme = "ftp" →
      _init_values enable c = Except.error (Exc.airflowConfigException
        "[core]internal_api_url must start with http:// or https://")) := by
  refine ⟨rfl, ?_⟩
  intro enable c hiso hen hftp
  unfold _init_values
  simp [hiso, hen, hftp]

/-- Witness for C6 (amended), at the endpoint `ftp://remote` and the
configuration whose URL parses with scheme `ftp`. -/
theorem force_api_access_skips_validation_witness :
    force_api_access "ftp://remote" initialState = ⟨true, true, "ftp://remote"⟩ ∧
    _init_values true confRemoteFtp = Except.error (Exc.airflowConfigException
      "[core]internal_api_url must start with http:// or https://") :=
  ⟨(force_api_access_skips_validation "ftp://remote" initialState).1,
    (force_api_access_skips_validation "ftp://remote" initialState).2 true confRemoteFtp
      rfl rfl rfl⟩

/-- C7 counterexample: after forcing remote mode with a non-empty
endpoint and then forcing local mode, the mode is Local yet the stored
endpoint is still the non-empty remote URL, and reading it returns that
URL — the claimed invariant (endpoint non-empty iff mode Remote) fails
on this reachable state. -/
theorem stale_endpoint_after_force_local :
    runGate true confLocal
        [GateOp.forceRemote "http://remote-host:8080/internal_api/v1/rpcapi",
          GateOp.forceLocal "trusted"] initialState =
      Except.ok ⟨true, false, "http://remote-host:8080/internal_api/v1/rpcapi"⟩ ∧
    (⟨true, false, "http://remote-host:8080/internal_api/v1/rpcapi"⟩ :
      ConfigState).use_internal_api = false ∧
    (⟨true, false, "http://remote-host:8080/internal_api/v1/rpcapi"⟩ :
      ConfigState).internal_api_endpoint ≠ "" ∧
    get_internal_api_endpoint true confLocal
        ⟨true, false, "http://remote-host:8080/internal_api/v1/rpcapi"⟩ =
      Except.ok ("http://remote-host:8080/internal_api/v1/rpcapi",
        ⟨true, false, "http://remote-host:8080/internal_api/v1/rpcapi"⟩) := by
  decide

/-- C7 (amended): lazy initialization establishes the invariant — after
`_init_values` the endpoint is non-empty iff the mode is Remote — and
`force_api_access` stores the given endpoint with mode Remote; but
`force_database_direct_access` sets mode Local while leaving the stored
endpoint unchanged, so forcing local after remote leaves the stale
non-empty endpoint observable in Local mode. -/
theorem endpoint_mode_invariant :
    (∀ msg s, (force_database_direct_access msg s).use_internal_api = false ∧
      (force_database_direct_access msg s).internal_api_endpoint = s.internal_api_endpoint) ∧
    (∀ e s, force_api_access e s = ⟨true, true, e⟩) ∧
    (∀ enable c s', _init_values enable c = Except.ok s' →
      (s'.use_internal_api = true ↔ s'.internal_api_endpoint ≠ "")) := by
  refine ⟨fun msg s => ⟨rfl, rfl⟩, fun e s => rfl, ?_⟩
  intro enable c s' h
  unfold _init_values at h
  dsimp only at h
  split at h
  · exact absurd h (by simp)
  · split at h
    · split at h
      · exact absurd h (by simp)
      · next hsch =>
        cases h
        simp only [not_not] at hsch
        constructor
        · intro _
          have hne : ("http" : String) ≠ "" ∧ ("https" : String) ≠ "" := by decide
          rcases hsch with h1 | h1 <;> rw [h1]
          · exact append_left_ne_empty _ _
              (append_left_ne_empty _ _ (append_left_ne_empty _ _ hne.1))
          · exact append_left_ne_empty _ _
              (append_left_ne_empty _ _ (append_left_ne_empty _ _ hne.2))
        · intro _
          rfl
    · cases h
      simp

/-- Witness for C7 (amended): the resolved state of lazy initialization
under `confRemoteHttp` satisfies the invariant. -/
theorem endpoint_mode_invariant_witness :
    ((⟨true, true, "http://localhost:8080/internal_api/v1/rpcapi"⟩ :
        ConfigState).use_internal_api = true ↔
      (⟨true, true, "http://localhost:8080/internal_api/v1/rpcapi"⟩ :
        ConfigState).internal_api_endpoint ≠ "") :=
  endpoint_mode_invariant.2.2 true confRemoteHttp
    ⟨true, true, "http://localhost:8080/internal_api/v1/rpcapi"⟩ (by decide)

/-- C8: lazy initialization — isolation requested while AIP-44 is
disabled at build level fails fatally (`RuntimeError`); under isolation
a URL scheme other than http/https fails with `AirflowConfigException`;
otherwise the stored endpoint is `scheme://netloc` followed by the
URL's path, an empty or root path being replaced with
`/internal_api/v1/rpcapi`. -/
theorem init_values_spec (enable : Bool) (c : Conf) :
    (c.database_access_isolation = true → enable = false →
      _init_values enable c =
        Except.error (Exc.runtimeError "The AIP_44 is not enabled so you cannot use it.")) ∧
    (c.database_access_isolation = true → enable = true →
      c.internal_api_url.scheme ≠ "http" → c.internal_api_url.scheme ≠ "https" →
      _init_values enable c = Except.error (Exc.airflowConfigException
        "[core]internal_api_url must start with http:// or https://")) ∧
    (c.database_access_isolation = true → enable = true →
      (c.internal_api_url.scheme = "http" ∨ c.internal_api_url.scheme = "https") →
      _init_values enable c = Except.ok ⟨true, true,
        c.internal_api_url.scheme ++ "://" ++ c.internal_api_url.netloc ++
          (if c.internal_api_url.path = "" ∨ c.internal_api_url.path = "/"
            then "/internal_api/v1/rpcapi" else c.internal_api_url.path)⟩) := by
  refine ⟨?_, ?_, ?_⟩
  · intro hiso hen
    unfold _init_values
    simp [hiso, hen]
  · intro hiso hen h1 h2
    unfold _init_values
    simp [hiso, hen, h1, h2]
  · intro hiso hen hsch
    unfold _init_values
    rcases hsch with h1 | h1 <;> simp [hiso, hen, h1]

/-- Witness for C8: the three behaviours at concrete configurations —
isolation with AIP-44 disabled, an ftp URL, and an http URL with empty
path (which receives the default RPC path). -/
theorem init_values_spec_witness :
    _init_values false ⟨true, ⟨"http", "h", ""⟩⟩ =
      Except.error (Exc.runtimeError "The AIP_44 is not enabled so you cannot use it.") ∧
    _init_values true confRemoteFtp = Except.error (Exc.airflowConfigException
      "[core]internal_api_url must start with http:// or https://") ∧
    _init_values true confRemoteHttp = Except.ok ⟨true, true,
      "http" ++ "://" ++ "localhost:8080" ++
        (if ("" : String) = "" ∨ ("" : String) = "/"
          then "/internal_api/v1/rpcapi" else "")⟩ :=
  ⟨(init_values_spec false ⟨true, ⟨"http", "h", ""⟩⟩).1 rfl rfl,
    (init_values_spec true confRemoteFtp).2.1 rfl rfl (by decide) (by decide),
    (init_values_spec true confRemoteHttp).2.2 rfl rfl (Or.inl rfl)⟩

end InternalApiCall
